import Mathlib

/-!
Shallow embedding of the KLE JSON codec from `damsenviet/kle` (`keyboard.py`),
together with proofs about its behaviour.

Conventions of the embedding:
* Python `mpf` arbitrary-precision decimals are modelled exactly as `ℚ`.
  `Rat.add`/`Rat.sub` are `@[irreducible]` in this toolchain, so the embedding
  uses `qadd`/`qsub` (defined through `mkRat`) to keep all definitions
  kernel-computable; they agree with `+`/`-` on `ℚ`.
* Python JSON-ish values are modelled by `PyVal`.  Python `dict`s are
  insertion-ordered association lists with unique keys.
* Python exceptions that are not `DeserializeException` (TypeError,
  IndexError, ValueError coming from external, typechecked setters or list
  indexing) are modelled by `Option`/`DecodeError.other`.
* The classes `Key`, `Label`, `Metadata`, `Background`, `Switch` are imported
  by `keyboard.py` from modules that are not part of the sources
  (`key.py`, `metadata.py`, `background.py`); they are modelled from the
  spec, see the doc comments on the corresponding structures.
-/

namespace Kle

/-- Integer as a rational, kernel-computable. -/
def qOfInt (n : ℤ) : ℚ := mkRat n 1

/-- Kernel-computable addition on `ℚ` (`Rat.add` is irreducible here);
`qadd_eq` below shows it agrees with `+`. -/
def qadd (a b : ℚ) : ℚ := mkRat (a.num * b.den + b.num * a.den) (a.den * b.den)

/-- Kernel-computable subtraction on `ℚ`; `qsub_eq` below shows it agrees
with `-`. -/
def qsub (a b : ℚ) : ℚ := mkRat (a.num * b.den - b.num * a.den) (a.den * b.den)

/-- Kernel-computable multiplication on `ℚ`; `qmul_eq` below shows it agrees
with `*`. -/
def qmul (a b : ℚ) : ℚ := mkRat (a.num * b.num) (a.den * b.den)

/-- Kernel-computable division on `ℚ`; `pydiv_eq` below shows it agrees
with `/`. -/
def pydiv (a b : ℚ) : ℚ := Rat.divInt (a.num * b.den) ((a.den : ℤ) * b.num)

/-- The characters stripped by Python `str.rstrip()` (ASCII whitespace; the
codec only ever produces spaces/newlines/tabs in label strings). -/
def isPySpace (c : Char) : Bool :=
  c == ' ' || c == '\t' || c == '\n' || c == '\r' || c == '\x0b' || c == '\x0c'

/-- Python `str.split("\n")` on the character list. -/
def splitNLChars : List Char → List (List Char)
  | [] => [[]]
  | c :: rest =>
    if c = '\n' then [] :: splitNLChars rest
    else
      match splitNLChars rest with
      | g :: gs => (c :: g) :: gs
      | [] => [[c]]

/-- Python `s.split("\n")`. -/
def pySplitNL (s : String) : List String := (splitNLChars s.data).map (fun g => ⟨g⟩)

/-- Python `s.rstrip()`. -/
def pyRstrip (s : String) : String := ⟨(s.data.reverse.dropWhile isPySpace).reverse⟩

/-- Python `"\n".join(l)`. -/
def joinNL (l : List String) : String := ⟨List.intercalate ['\n'] (l.map (fun s => s.data))⟩

/-- JSON-ish Python runtime values handled by the codec.  `int`, `float` and
`mpf` distinguish the Python number kinds; `dict` is an insertion-ordered
association list with unique keys. -/
inductive PyVal where
  | int (n : ℤ)
  | float (q : ℚ)
  | mpf (q : ℚ)
  | str (s : String)
  | bool (b : Bool)
  | list (l : List PyVal)
  | dict (d : List (String × PyVal))
  | none

/-- Numeric value of a `PyVal`, Python style (`bool` is an `int` subclass). -/
def PyVal.numVal : PyVal → Option ℚ
  | .int n => some (qOfInt n)
  | .float q => some q
  | .mpf q => some q
  | .bool b => some (if b then qOfInt 1 else qOfInt 0)
  | _ => Option.none

/-- Python `type(v).__name__`. -/
def pyTypeName : PyVal → String
  | .int _ => "int"
  | .float _ => "float"
  | .mpf _ => "mpf"
  | .str _ => "str"
  | .bool _ => "bool"
  | .list _ => "list"
  | .dict _ => "dict"
  | .none => "NoneType"

/-- Python `==` on scalars: numbers (of any kind) compare by value, strings
and `None` structurally, anything else (or mixed kinds) is unequal.  Used for
the elements of flat lists and as the base of `pyEq`. -/
def pyLeafEq (a b : PyVal) : Bool :=
  match a.numVal, b.numVal with
  | some x, some y => x == y
  | _, _ =>
    match a, b with
    | .str x, .str y => x == y
    | .none, .none => true
    | _, _ => false

/-- Python `==` as the codec uses it.  Lists compare elementwise (the codec
only ever compares flat lists of numbers, e.g. `fa` against `[]`), dicts
compare pairwise (only ever compared against `None`), everything else is
`pyLeafEq`.  In particular a list is never equal to a scalar. -/
def pyEq (a b : PyVal) : Bool :=
  match a, b with
  | .list as_, .list bs =>
    as_.length == bs.length && (as_.zip bs).all (fun p => pyLeafEq p.1 p.2)
  | .dict as_, .dict bs =>
    as_.length == bs.length &&
      (as_.zip bs).all (fun p => p.1.1 == p.2.1 && pyLeafEq p.1.2 p.2.2)
  | _, _ => pyLeafEq a b

/-- Python `d[k]` lookup on a dict (unique keys, first match). -/
def dlookup (d : List (String × PyVal)) (k : String) : Option PyVal :=
  (d.find? (fun p => p.1 == k)).map (fun p => p.2)

/-- Python `k in d`. -/
def hasField (d : List (String × PyVal)) (k : String) : Bool :=
  (dlookup d k).isSome

/-- Python `d[k] = v`: overwrite in place if present (keys are unique), else
append. -/
def dictInsert : List (String × PyVal) → String → PyVal → List (String × PyVal)
  | [], k, v => [(k, v)]
  | p :: rest, k, v => if p.1 == k then (p.1, v) :: rest else p :: dictInsert rest k v

/-- `label_map` from `keyboard.py`: for alignment code `a`, `label_map[a][i]`
is the canonical slot that aligned position `i` refers to; `-1` means unused. -/
def label_map : List (List ℤ) :=
  [[0, 6, 2, 8, 9, 11, 3, 5, 1, 4, 7, 10],
   [1, 7, -1, -1, 9, 11, 4, -1, -1, -1, -1, 10],
   [3, -1, 5, -1, 9, 11, -1, -1, 4, -1, -1, 10],
   [4, -1, -1, -1, 9, 11, -1, -1, -1, -1, -1, 10],
   [0, 6, 2, 8, 10, -1, 3, 5, 1, 4, 7, -1],
   [1, 7, -1, -1, 10, -1, 4, -1, -1, -1, -1, -1],
   [3, -1, 5, -1, 10, -1, -1, -1, 4, -1, -1, -1],
   [4, -1, -1, -1, 10, -1, -1, -1, -1, -1, -1, -1]]

/-- `disallowed_alignnment_for_labels` from `keyboard.py` (source spelling
kept): for canonical slot `i`, the alignment codes incompatible with a
non-empty label there. -/
def disallowed_alignnment_for_labels : List (List ℤ) :=
  [[1, 2, 3, 5, 6, 7],
   [2, 3, 6, 7],
   [1, 2, 3, 5, 6, 7],
   [1, 3, 5, 7],
   [],
   [1, 3, 5, 7],
   [1, 2, 3, 5, 6, 7],
   [2, 3, 6, 7],
   [1, 2, 3, 5, 6, 7],
   [4, 5, 6, 7],
   [],
   [4, 5, 6, 7]]

/-- Resolve a Python list index (negative indices count from the end;
out-of-range is an `IndexError`, i.e. `none`). -/
def pyIdx (len : ℕ) (i : ℤ) : Option ℕ :=
  if 0 ≤ i then (if i < (len : ℤ) then some i.toNat else Option.none)
  else (if 0 ≤ i + (len : ℤ) then some (i + (len : ℤ)).toNat else Option.none)

/-- Python `l[i] = v` with an `ℤ` index. -/
def pySet {α : Type} (l : List α) (i : ℤ) (v : α) : Option (List α) :=
  (pyIdx l.length i).map (fun n => l.set n v)

/-- Python `for i, x in enumerate(src): dst[i] = x`: overwrite the first
`src.length` positions of `dst`; `IndexError` (`none`) if `dst` is shorter. -/
def pyWriteSeq {α : Type} : List α → List α → Option (List α)
  | dst, [] => some dst
  | [], _ :: _ => Option.none
  | _ :: dst, c :: src => (pyWriteSeq dst src).map (fun t => c :: t)

/-- Python `for i, x in enumerate(src): dst[i] = f(dst[i], x)` (used for the
per-slot label updates); `IndexError` (`none`) if `dst` is shorter. -/
def pyZipWrite {α β : Type} (f : α → β → α) : List α → List β → Option (List α)
  | dst, [] => some dst
  | [], _ :: _ => Option.none
  | d :: dst, b :: src => (pyZipWrite f dst src).map (fun t => f d b :: t)

/-- `unaligned` from `keyboard.py`: scatter `aligned_items[i]` into canonical
slot `label_map[alignment][i]` of a fresh 12-element array filled with
`default_val`.  Note the Python quirk: the `-1` sentinel is a valid negative
index and writes slot 11.  `none` models the `IndexError`/`TypeError` raised
for more than 12 items or an invalid alignment. -/
def unaligned {α : Type} (aligned_items : List α) (alignment : ℤ) (default_val : α) :
    Option (List α) := do
  let rowIdx ← pyIdx label_map.length alignment
  let row := label_map.getD rowIdx []
  aligned_items.enum.foldlM
    (fun acc p => do
      let j ← row.get? p.1
      pySet acc j p.2)
    (List.replicate 12 default_val)

/-- Modelled from the spec: `Switch` lives in a module that is not part of
the sources; §3/§6 describe it as a plain record of mount/brand/type strings
defaulting to `""`. -/
structure SwitchInfo where
  mount : String
  brand : String
  type : String
deriving DecidableEq

def SwitchInfo.default : SwitchInfo := ⟨"", "", ""⟩

/-- Modelled from the spec: `Label` (`key.py` is not part of the sources);
§3 gives fields text/color/size with unset sentinels `""`/`""`/`0`. -/
structure Label where
  text : String
  color : String
  size : ℚ
deriving DecidableEq

def Label.default : Label := ⟨"", "", 0⟩

/-- Modelled from the spec: `Key` (`key.py` is not part of the sources).
§3: position, rotation, primary/secondary box geometry, 12 label slots,
boolean flags, profile string, switch descriptor, default text color/size.
Defaults: `w = h = 1`, all other numerics `0`, flags false, strings `""`.
Python `int`/`float` sizes are both modelled as `ℚ`. -/
structure Key where
  color : String
  labels : List Label
  default_text_color : String
  default_text_size : ℚ
  x : ℚ
  y : ℚ
  width : ℚ
  height : ℚ
  x2 : ℚ
  y2 : ℚ
  width2 : ℚ
  height2 : ℚ
  rotation_x : ℚ
  rotation_y : ℚ
  rotation_angle : ℚ
  is_ghosted : Bool
  is_stepped : Bool
  is_homing : Bool
  is_decal : Bool
  profile_and_row : String
  switch : SwitchInfo
deriving DecidableEq

def Key.default : Key :=
  { color := ""
    labels := List.replicate 12 Label.default
    default_text_color := ""
    default_text_size := 0
    x := 0, y := 0
    width := 1, height := 1
    x2 := 0, y2 := 0, width2 := 0, height2 := 0
    rotation_x := 0, rotation_y := 0, rotation_angle := 0
    is_ghosted := false, is_stepped := false, is_homing := false, is_decal := false
    profile_and_row := ""
    switch := SwitchInfo.default }

/-- Modelled from the spec: `Background` (`background.py` is not part of the
sources); §3 gives name/style strings defaulting to `""`. -/
structure Background where
  name : String
  style : String
deriving DecidableEq

def Background.default : Background := ⟨"", ""⟩

/-- Modelled from the spec: `Metadata` (`metadata.py` is not part of the
sources); §3 lists its fields, with the plate/pcb booleans each paired with
an explicit "was specified" flag.  Strings default to `""`, flags to false. -/
structure Metadata where
  author : String
  background_color : String
  background : Background
  name : String
  notes : String
  radii : String
  css : String
  switch : SwitchInfo
  is_switches_pcb_mounted : Bool
  include_switches_pcb_mounted : Bool
  is_switches_plate_mounted : Bool
  include_switches_plate_mounted : Bool
deriving DecidableEq

def Metadata.default : Metadata :=
  { author := "", background_color := "", background := Background.default
    name := "", notes := "", radii := "", css := ""
    switch := SwitchInfo.default
    is_switches_pcb_mounted := false, include_switches_pcb_mounted := false
    is_switches_plate_mounted := false, include_switches_plate_mounted := false }

/-- `Keyboard`: one `Metadata` plus an ordered list of keys. -/
structure Keyboard where
  metadata : Metadata
  keys : List Key
deriving DecidableEq

/-- `Keyboard.__init__(self, metadata=None, keys=None)` from `keyboard.py`:
the body ignores both parameters and assigns a fresh default `Metadata` and
an empty key list. -/
def Keyboard.init (_metadata : Option Metadata) (_keys : Option (List Key)) : Keyboard :=
  { metadata := Metadata.default, keys := [] }

/-- `record_change` from `keyboard.py`.  Registers `name ↦ val` in `changes`
iff `val != default_val`; an `mpf` value with zero fractional part
(`val % 1 == 0`, i.e. denominator 1) is written as an `int` literal,
otherwise as a `float`; returns `val` unchanged. -/
def record_change (changes : List (String × PyVal)) (name : String)
    (val default_val : PyVal) : List (String × PyVal) × PyVal :=
  (if pyEq val default_val then changes
   else
     match val with
     | .mpf q =>
       if q.den = 1 then dictInsert changes name (.int q.num)
       else dictInsert changes name (.float q)
     | v => dictInsert changes name v,
   val)

/-- `_reduced_text_sizes` from `keyboard.py`: copy with trailing zeros
stripped. -/
def _reduced_text_sizes (text_sizes : List ℚ) : List ℚ :=
  (text_sizes.reverse.dropWhile (fun q => q == 0)).reverse

/-- `compare_text_sizes` from `keyboard.py`, specialised to a list first
argument (its only caller, `to_json`, always passes a 12-element list, so the
scalar branch of the Python union type is unreachable). -/
def compare_text_sizes (text_sizes : List ℚ) (aligned_text_sizes : List ℚ)
    (aligned_text_labels : List String) : Bool :=
  (List.range 12).all (fun i =>
    if aligned_text_labels.getD i "" == "" then true
    else if ((text_sizes.getD i 0 != 0) != (aligned_text_sizes.getD i 0 != 0))
        || (text_sizes.getD i 0 != 0 && text_sizes.getD i 0 != aligned_text_sizes.getD i 0)
      then false
    else true)

/-- The candidate-elimination loop of `_aligned_key_properties`: starting
from the priority list `[7, 5, 6, 4, 3, 1, 2, 0]`, for each canonical slot
`i` with non-empty text, every alignment listed in
`disallowed_alignnment_for_labels[i]` is removed (`list.remove` on a copy of
the running list, exactly as the source iterates). -/
def alignment_candidates (texts : List String) : List ℤ :=
  (List.range texts.length).foldl
    (fun als i =>
      if texts.getD i "" ≠ "" then
        als.foldl
          (fun acc a =>
            if (disallowed_alignnment_for_labels.getD i []).contains a then acc.erase a
            else acc)
          als
      else als)
    [7, 5, 6, 4, 3, 1, 2, 0]

/-- The "generate label arrays in correct order" loop of
`_aligned_key_properties`. -/
def align_arrays (row : List ℤ) (texts colors : List String) (sizes : List ℚ) :
    List String × List String × List ℚ :=
  (List.range 12).foldl
    (fun acc (i : ℕ) =>
      match row.findIdx? (fun j => j == Int.ofNat i) with
      | some ndx =>
        let acc := if texts.getD i "" ≠ "" then (acc.1.set ndx (texts.getD i ""), acc.2.1, acc.2.2) else acc
        let acc := if colors.getD i "" ≠ "" then (acc.1, acc.2.1.set ndx (colors.getD i ""), acc.2.2) else acc
        if sizes.getD i 0 ≠ 0 then (acc.1, acc.2.1, acc.2.2.set ndx (sizes.getD i 0)) else acc
      | Option.none => acc)
    (List.replicate 12 "", List.replicate 12 "", List.replicate 12 (0 : ℚ))

/-- The "clean up" loop of `_aligned_key_properties`.  The loop bound is the
reduced length of the aligned sizes *before* any mutation (Python evaluates
`range(...)` once).  The second `if` compares the whole size array against
the scalar default size with Python `==` (`pyEq`). -/
def aligned_cleanup (bound : ℕ) (aligned_text_labels : List String)
    (current_labels_size : List ℚ) (default_text_size : ℚ) (sizes0 : List ℚ) : List ℚ :=
  (List.range bound).foldl
    (fun sizes i =>
      let sizes := if aligned_text_labels.getD i "" == "" then sizes.set i (current_labels_size.getD i 0) else sizes
      if pyEq (.list (sizes.map (fun q => PyVal.float q))) (.float default_text_size) then sizes.set i 0
      else sizes)
    sizes0

/-- `_aligned_key_properties` from `keyboard.py`: chooses the alignment (the
first surviving candidate; the list is never empty since code 0 is never
disallowed) and computes the aligned text/color/size arrays. -/
def _aligned_key_properties (key : Key) (current_labels_size : List ℚ) :
    ℤ × List String × List String × List ℚ :=
  let texts := key.labels.map (fun l => l.text)
  let colors := key.labels.map (fun l =>
    if l.text == "" then "" else if l.color == key.default_text_color then "" else l.color)
  let sizes := key.labels.map (fun l =>
    if l.text == "" then 0 else if l.size == key.default_text_size then 0 else l.size)
  let alignment := (alignment_candidates texts).headD 0
  let row := label_map.getD alignment.toNat []
  let arrs := align_arrays row texts colors sizes
  let ats := aligned_cleanup (_reduced_text_sizes arrs.2.2).length arrs.1
    current_labels_size key.default_text_size arrs.2.2
  (alignment, arrs.1, arrs.2.1, ats)

/-- The "clean up" loop with the branch
`if aligned_text_size == key.default_text_size: aligned_text_size[i] = 0`
removed (for comparison with `aligned_cleanup`). -/
def aligned_cleanup_nodead (bound : ℕ) (aligned_text_labels : List String)
    (current_labels_size : List ℚ) (sizes0 : List ℚ) : List ℚ :=
  (List.range bound).foldl
    (fun sizes i =>
      if aligned_text_labels.getD i "" == "" then sizes.set i (current_labels_size.getD i 0)
      else sizes)
    sizes0

/-- `_aligned_key_properties` with the dead size-comparison branch removed
(for comparison in claim C5). -/
def _aligned_key_properties_nodead (key : Key) (current_labels_size : List ℚ) :
    ℤ × List String × List String × List ℚ :=
  let texts := key.labels.map (fun l => l.text)
  let colors := key.labels.map (fun l =>
    if l.text == "" then "" else if l.color == key.default_text_color then "" else l.color)
  let sizes := key.labels.map (fun l =>
    if l.text == "" then 0 else if l.size == key.default_text_size then 0 else l.size)
  let alignment := (alignment_candidates texts).headD 0
  let row := label_map.getD alignment.toNat []
  let arrs := align_arrays row texts colors sizes
  let ats := aligned_cleanup_nodead (_reduced_text_sizes arrs.2.2).length arrs.1
    current_labels_size arrs.2.2
  (alignment, arrs.1, arrs.2.1, ats)

/-- `mpf(str(v))` on a JSON number (numeric strings are not modelled; for a
non-number the surrounding code raises, i.e. `none`). -/
def asMpfNum : PyVal → Option ℚ
  | .int n => some (qOfInt n)
  | .float q => some q
  | .mpf q => some q
  | _ => Option.none

/-- A raw Python `int`/`float` (label sizes are stored without conversion;
anything else is rejected by the external typechecked setters). -/
def asRawNum : PyVal → Option ℚ
  | .int n => some (qOfInt n)
  | .float q => some q
  | _ => Option.none

def asStr : PyVal → Option String
  | .str s => some s
  | _ => Option.none

def asBool : PyVal → Option Bool
  | .bool b => some b
  | _ => Option.none

def asList : PyVal → Option (List PyVal)
  | .list l => some l
  | _ => Option.none

def asDict : PyVal → Option (List (String × PyVal))
  | .dict d => some d
  | _ => Option.none

/-- A value stored as the running alignment and later used as a Python list
index (`label_map[alignment]`): an `int`, or a `bool` (a Python `int`
subclass); anything else raises a `TypeError` at its use site, modelled as
`none` at the store. -/
def asIdxInt : PyVal → Option ℤ
  | .int n => some n
  | .bool b => some (if b then 1 else 0)
  | _ => Option.none

/-- Python `l[i] = v` with a `ℕ` index (`IndexError` when out of range). -/
def pySetNat {α : Type} (l : List α) (i : ℕ) (v : α) : Option (List α) :=
  if i < l.length then some (l.set i v) else Option.none

/-- `playback_key_changes` from `keyboard.py`, field by field in source
order.  Returns the mutated key together with the tuple the source returns.
`none` models the exceptions raised by `mpf(...)` conversions, the external
typechecked setters, or list indexing on malformed values. -/
def playback_key_changes (key : Key) (key_changes : List (String × PyVal))
    (current_labels_color : List String) (current_labels_size : List ℚ)
    (alignment : ℤ) (cluster_rotation_x cluster_rotation_y : ℚ) :
    Option (Key × List String × List ℚ × ℤ × ℚ × ℚ) := do
  let key ←
    match dlookup key_changes "r" with
    | some v => (asMpfNum v).map (fun q => { key with rotation_angle := q })
    | Option.none => pure key
  let (key, cluster_rotation_x) ←
    match dlookup key_changes "rx" with
    | some v => (asMpfNum v).map (fun q =>
        ({ key with rotation_x := q, x := q, y := cluster_rotation_y }, q))
    | Option.none => pure (key, cluster_rotation_x)
  let (key, cluster_rotation_y) ←
    match dlookup key_changes "ry" with
    | some v => (asMpfNum v).map (fun q =>
        ({ key with rotation_y := q, x := cluster_rotation_x, y := q }, q))
    | Option.none => pure (key, cluster_rotation_y)
  let alignment ←
    match dlookup key_changes "a" with
    | some v => asIdxInt v
    | Option.none => pure alignment
  let (key, current_labels_size) ←
    match dlookup key_changes "f" with
    | some v => (asRawNum v).map (fun q =>
        ({ key with default_text_size := q },
          List.replicate current_labels_size.length (0 : ℚ)))
    | Option.none => pure (key, current_labels_size)
  let current_labels_size ←
    match dlookup key_changes "f2" with
    | some v => do
      let q ← asRawNum v
      (List.range' 1 11).foldlM (fun (acc : List ℚ) i => pySetNat acc i q) current_labels_size
    | Option.none => pure current_labels_size
  let current_labels_size ←
    match dlookup key_changes "fa" with
    | some v => do
      let vs ← asList v
      let nums ← vs.mapM asRawNum
      let cls ← nums.enum.foldlM (fun (acc : List ℚ) p => pySetNat acc p.1 p.2) current_labels_size
      (List.range' vs.length (12 - vs.length)).foldlM
        (fun (acc : List ℚ) i => pySetNat acc i (0 : ℚ)) cls
    | Option.none => pure current_labels_size
  let key ←
    match dlookup key_changes "p" with
    | some v => (asStr v).map (fun s => { key with profile_and_row := s })
    | Option.none => pure key
  let key ←
    match dlookup key_changes "c" with
    | some v => (asStr v).map (fun s => { key with color := s })
    | Option.none => pure key
  let (key, current_labels_color) ←
    match dlookup key_changes "t" with
    | some v => do
      let s ← asStr v
      let labels_color := pySplitNL s
      let key :=
        if labels_color.headD "" ≠ "" then { key with default_text_color := labels_color.headD "" }
        else key
      let u ← unaligned labels_color alignment ""
      let current_labels_color ← pyWriteSeq current_labels_color u
      pure (key, current_labels_color)
    | Option.none => pure (key, current_labels_color)
  let key ←
    match dlookup key_changes "x" with
    | some v => (asMpfNum v).map (fun q => { key with x := qadd key.x q })
    | Option.none => pure key
  let key ←
    match dlookup key_changes "y" with
    | some v => (asMpfNum v).map (fun q => { key with y := qadd key.y q })
    | Option.none => pure key
  let key ←
    match dlookup key_changes "w" with
    | some v => (asMpfNum v).map (fun q => { key with width := q, width2 := q })
    | Option.none => pure key
  let key ←
    match dlookup key_changes "h" with
    | some v => (asMpfNum v).map (fun q => { key with height := q, height2 := q })
    | Option.none => pure key
  let key ←
    match dlookup key_changes "x2" with
    | some v => (asMpfNum v).map (fun q => { key with x2 := q })
    | Option.none => pure key
  let key ←
    match dlookup key_changes "y2" with
    | some v => (asMpfNum v).map (fun q => { key with y2 := q })
    | Option.none => pure key
  let key ←
    match dlookup key_changes "w2" with
    | some v => (asMpfNum v).map (fun q => { key with width2 := q })
    | Option.none => pure key
  let key ←
    match dlookup key_changes "h2" with
    | some v => (asMpfNum v).map (fun q => { key with height2 := q })
    | Option.none => pure key
  let key ←
    match dlookup key_changes "n" with
    | some v => (asBool v).map (fun b => { key with is_homing := b })
    | Option.none => pure key
  let key ←
    match dlookup key_changes "l" with
    | some v => (asBool v).map (fun b => { key with is_stepped := b })
    | Option.none => pure key
  let key ←
    match dlookup key_changes "d" with
    | some v => (asBool v).map (fun b => { key with is_decal := b })
    | Option.none => pure key
  let key ←
    match dlookup key_changes "g" with
    | some v => (asBool v).map (fun b => { key with is_ghosted := b })
    | Option.none => pure key
  let key ←
    match dlookup key_changes "sm" with
    | some v => (asStr v).map (fun s => { key with switch := { key.switch with mount := s } })
    | Option.none => pure key
  let key ←
    match dlookup key_changes "sb" with
    | some v => (asStr v).map (fun s => { key with switch := { key.switch with mount := s } })
    | Option.none => pure key
  let key ←
    match dlookup key_changes "st" with
    | some v => (asStr v).map (fun s => { key with switch := { key.switch with mount := s } })
    | Option.none => pure key
  pure (key, current_labels_color, current_labels_size, alignment,
    cluster_rotation_x, cluster_rotation_y)

/-- `playback_metadata_changes` from `keyboard.py`, field by field in source
order.  `none` models the exceptions of the external typechecked setters on
malformed values. -/
def playback_metadata_changes (metadata : Metadata)
    (metadata_changes : List (String × PyVal)) : Option Metadata := do
  let metadata ←
    match dlookup metadata_changes "author" with
    | some v => (asStr v).map (fun s => { metadata with author := s })
    | Option.none => pure metadata
  let metadata ←
    match dlookup metadata_changes "backcolor" with
    | some v => (asStr v).map (fun s => { metadata with background_color := s })
    | Option.none => pure metadata
  let metadata ←
    match dlookup metadata_changes "background" with
    | some v => do
      let d ← asDict v
      let metadata ←
        match dlookup d "name" with
        | some v2 => (asStr v2).map (fun s =>
            { metadata with background := { metadata.background with name := s } })
        | Option.none => pure metadata
      match dlookup d "style" with
      | some v2 => (asStr v2).map (fun s =>
          { metadata with background := { metadata.background with style := s } })
      | Option.none => pure metadata
    | Option.none => pure metadata
  let metadata ←
    match dlookup metadata_changes "name" with
    | some v => (asStr v).map (fun s => { metadata with name := s })
    | Option.none => pure metadata
  let metadata ←
    match dlookup metadata_changes "notes" with
    | some v => (asStr v).map (fun s => { metadata with notes := s })
    | Option.none => pure metadata
  let metadata ←
    match dlookup metadata_changes "radii" with
    | some v => (asStr v).map (fun s => { metadata with radii := s })
    | Option.none => pure metadata
  let metadata ←
    match dlookup metadata_changes "switchMount" with
    | some v => (asStr v).map (fun s => { metadata with switch := { metadata.switch with mount := s } })
    | Option.none => pure metadata
  let metadata ←
    match dlookup metadata_changes "switchBrand" with
    | some v => (asStr v).map (fun s => { metadata with switch := { metadata.switch with brand := s } })
    | Option.none => pure metadata
  let metadata ←
    match dlookup metadata_changes "switchType" with
    | some v => (asStr v).map (fun s => { metadata with switch := { metadata.switch with type := s } })
    | Option.none => pure metadata
  let metadata ←
    match dlookup metadata_changes "css" with
    | some v => (asStr v).map (fun s => { metadata with css := s })
    | Option.none => pure metadata
  let metadata ←
    match dlookup metadata_changes "pcb" with
    | some v => (asBool v).map (fun b =>
        { metadata with is_switches_pcb_mounted := b, include_switches_pcb_mounted := true })
    | Option.none => pure metadata
  let metadata ←
    match dlookup metadata_changes "plate" with
    | some v => (asBool v).map (fun b =>
        { metadata with is_switches_plate_mounted := b, include_switches_plate_mounted := true })
    | Option.none => pure metadata
  pure metadata

/-- Decode failure: a raised `DeserializeException` (message and offending
payload), or any other Python exception. -/
inductive DecodeError where
  | deser (message : String) (payload : PyVal)
  | other

/-- The persistent state threaded through `Keyboard.from_json`. -/
structure DecState where
  metadata : Metadata
  keys : List Key
  current : Key
  current_labels_size : List ℚ
  current_labels_color : List String
  alignment : ℤ
  cluster_rotation_x : ℚ
  cluster_rotation_y : ℚ

/-- The initial decode state of `Keyboard.from_json`. -/
def initDecState : DecState :=
  { metadata := Metadata.default
    keys := []
    current := Key.default
    current_labels_size := List.replicate 12 (0 : ℚ)
    current_labels_color := List.replicate 12 ""
    alignment := 4
    cluster_rotation_x := 0
    cluster_rotation_y := 0 }

def rotation_error_message : String :=
  "rotataion changes can only be made at the" ++ "beginning of the row"

def row_item_error_message : String :=
  "expected an object specifying key changes or" ++ "text labels for a key"

def metadata_error_message : String :=
  "metadata can only be specified as first item"

def top_level_error_message : String :=
  "Expected an array of objects:"

/-- The label-string branch of `from_json`: materialize a new key from the
running template and append it, then advance the template. -/
def materialize_key (st : DecState) (labels : String) : Option DecState := do
  let current := st.current
  let new_key := { current with
    width2 := if current.width2 ≠ 0 then current.width2 else current.width
    height2 := if current.height2 ≠ 0 then current.height2 else current.height }
  let texts ← unaligned (pySplitNL labels) st.alignment ""
  let lbls ← pyZipWrite (fun (l : Label) t => { l with text := t }) new_key.labels texts
  let sizesU ← unaligned st.current_labels_size st.alignment (0 : ℚ)
  let lbls ← pyZipWrite (fun (l : Label) (sz : ℚ) =>
      { l with size := if sz == 0 then new_key.default_text_size else sz }) lbls sizesU
  let lbls ← pyZipWrite (fun (l : Label) (c : String) =>
      { l with color := if c == "" then new_key.default_text_color else c })
    lbls st.current_labels_color
  let new_key := { new_key with labels := lbls }
  let current := { current with
    x := qadd current.x current.width
    width := 1, height := 1
    x2 := 0, y2 := 0, width2 := 0, height2 := 0
    is_homing := false, is_stepped := false, is_decal := false }
  pure { st with keys := st.keys ++ [new_key], current := current }

/-- One row element of `from_json`: a label string materializes a key; a
mapping with a rotation field at index `k ≠ 0` raises; any other mapping is
played back; anything else raises the fixed row-element error with the item
as payload. -/
def processRowItem (st : DecState) (row : List PyVal) (k : ℕ) (item : PyVal) :
    Except DecodeError DecState :=
  match item with
  | .str labels =>
    match materialize_key st labels with
    | some st => .ok st
    | Option.none => .error .other
  | .dict key_changes =>
    if k != 0 && (hasField key_changes "r" || hasField key_changes "rx" || hasField key_changes "ry") then
      .error (.deser rotation_error_message (.list row))
    else
      match playback_key_changes st.current key_changes st.current_labels_color
          st.current_labels_size st.alignment st.cluster_rotation_x st.cluster_rotation_y with
      | some (key, colors, sizes, a, crx, cry) =>
        .ok { st with
          current := key
          current_labels_color := colors
          current_labels_size := sizes
          alignment := a
          cluster_rotation_x := crx
          cluster_rotation_y := cry }
      | Option.none => .error .other
  | _ => .error (.deser row_item_error_message item)

/-- One row of `from_json` (afterwards the running y advances by 1). -/
def processRow (st : DecState) (row : List PyVal) : Except DecodeError DecState := do
  let st ← row.enum.foldlM (fun st p => processRowItem st row p.1 p.2) st
  pure { st with current := { st.current with y := qadd st.current.y 1 } }

/-- One top-level element of `from_json`: a row, a metadata mapping (only
legal first), or a structural error naming the value's type. -/
def processTopItem (st : DecState) (r : ℕ) (item : PyVal) : Except DecodeError DecState :=
  match item with
  | .list row => processRow st row
  | .dict metadata_changes =>
    if r ≠ 0 then .error (.deser metadata_error_message item)
    else
      match playback_metadata_changes st.metadata metadata_changes with
      | some m => .ok { st with metadata := m }
      | Option.none => .error .other
  | _ => .error (.deser ("encountered unexpected type of " ++ pyTypeName item) item)

/-- `Keyboard.from_json` from `keyboard.py`.  After every top-level element
the running x is reset to the running rotation-x origin. -/
def from_json (keyboard_json : PyVal) : Except DecodeError Keyboard :=
  match keyboard_json with
  | .list items => do
    let st ← items.enum.foldlM
      (fun st p => do
        let st ← processTopItem st p.1 p.2
        pure { st with current := { st.current with x := st.current.rotation_x } })
      initDecState
    pure { metadata := st.metadata, keys := st.keys }
  | _ => .error (.deser top_level_error_message keyboard_json)

/-- Python `a % b` on numbers for `b ≠ 0`: `a - b * ⌊a / b⌋` (the result's
sign follows the divisor; the encoder only uses it with `b = 360`).  Built
from the kernel-computable wrappers; `pymod_eq` restates it with the
ordinary field operations. -/
def pymod (a b : ℚ) : ℚ := qsub a (qmul b (qOfInt ⌊pydiv a b⌋))

/-- `key_sort_criteria` from `keyboard.py`: the tuple
`((rotation_angle + 360) % 360, rotation_x, rotation_y, y, x)`. -/
def key_sort_criteria (key : Key) : ℚ × ℚ × ℚ × ℚ × ℚ :=
  (pymod (qadd key.rotation_angle 360) 360, key.rotation_x, key.rotation_y, key.y, key.x)

/-- Lexicographic `≤` on 5-tuples of rationals, as a kernel-computable
Boolean (Python compares key tuples lexicographically). -/
def lexLeB (a b : ℚ × ℚ × ℚ × ℚ × ℚ) : Bool :=
  if a.1 ≠ b.1 then decide (a.1 < b.1)
  else if a.2.1 ≠ b.2.1 then decide (a.2.1 < b.2.1)
  else if a.2.2.1 ≠ b.2.2.1 then decide (a.2.2.1 < b.2.2.1)
  else if a.2.2.2.1 ≠ b.2.2.2.1 then decide (a.2.2.2.1 < b.2.2.2.1)
  else decide (a.2.2.2.2 ≤ b.2.2.2.2)

/-- The 5-tuple as a value of the lexicographic order on nested pairs. -/
def lexOf (t : ℚ × ℚ × ℚ × ℚ × ℚ) : Lex (ℚ × Lex (ℚ × Lex (ℚ × Lex (ℚ × ℚ)))) :=
  toLex (t.1, toLex (t.2.1, toLex (t.2.2.1, toLex (t.2.2.2.1, t.2.2.2.2))))

/-- The ordering used by `sorted(self.__keys, key=key_sort_criteria)`:
lexicographic comparison of the criteria tuples. -/
def keyRel (a b : Key) : Prop :=
  lexLeB (key_sort_criteria a) (key_sort_criteria b) = true

instance : DecidableRel keyRel := fun _a _b =>
  inferInstanceAs (Decidable (_ = true))

/-- `sorted(self.__keys, key=key_sort_criteria)` (a stable sort by the
criteria tuple). -/
def sorted_keys (keyboard : Keyboard) : List Key :=
  List.insertionSort keyRel keyboard.keys

/-- The running state threaded through the key loop of `to_json`.  Note that
the source initialises `current_labels_color` (annotated `List[str]`) with
the *string* `current.default_text_color`; it is only ever compared against
and replaced by joined color strings, so it is a `String` here too. -/
structure EncState where
  keyboard_json : List PyVal
  row : List PyVal
  current : Key
  align : ℤ
  current_labels_color : String
  current_labels_size : List ℚ
  cluster_rotation_angle : ℚ
  cluster_rotation_x : ℚ
  cluster_rotation_y : ℚ
  is_new_row : Bool

/-- The metadata-changes mapping built at the top of `to_json`, recorded
field by field against a default `Metadata` in source order. -/
def metadata_changes_of (m : Metadata) : List (String × PyVal) :=
  let dm := Metadata.default
  let mc : List (String × PyVal) := []
  let mc := (record_change mc "backcolor" (.str m.background_color) (.str dm.background_color)).1
  let mc := (record_change mc "name" (.str m.name) (.str dm.name)).1
  let mc := (record_change mc "author" (.str m.author) (.str dm.author)).1
  let mc := (record_change mc "notes" (.str m.notes) (.str dm.notes)).1
  let db := Background.default
  let bc : List (String × PyVal) := []
  let bc := (record_change bc "name" (.str m.background.name) (.str db.name)).1
  let bc := (record_change bc "style" (.str m.background.style) (.str db.style)).1
  let mc := if bc.length > 0 then (record_change mc "background" (.dict bc) .none).1 else mc
  let mc := (record_change mc "radii" (.str m.radii) (.str dm.radii)).1
  let mc := (record_change mc "switchMount" (.str m.switch.mount) (.str dm.switch.mount)).1
  let mc := (record_change mc "switchBrand" (.str m.switch.brand) (.str dm.switch.brand)).1
  let mc := (record_change mc "switchType" (.str m.switch.type) (.str dm.switch.type)).1
  let mc := (record_change mc "css" (.str m.css) (.str dm.css)).1
  let mc :=
    if m.include_switches_plate_mounted
        || (m.is_switches_plate_mounted != dm.is_switches_plate_mounted) then
      (record_change mc "plate" (.bool m.is_switches_plate_mounted) .none).1
    else mc
  let mc :=
    if m.include_switches_pcb_mounted
        || (m.is_switches_pcb_mounted != dm.is_switches_pcb_mounted) then
      (record_change mc "pcb" (.bool m.is_switches_pcb_mounted) .none).1
    else mc
  mc

/-- The "start a new row when necessary" block of the `to_json` loop: flush
the row buffer on a row/cluster change, then set up the new row. -/
def encode_row_setup (st : EncState) (key : Key) : EncState :=
  let is_cluster_changed :=
    (key.rotation_angle != st.cluster_rotation_angle)
      || (key.rotation_x != st.cluster_rotation_x)
      || (key.rotation_y != st.cluster_rotation_y)
  let is_row_changed := key.y != st.current.y
  let st :=
    if st.row.length > 0 && (is_row_changed || is_cluster_changed) then
      { st with keyboard_json := st.keyboard_json ++ [.list st.row], row := [], is_new_row := true }
    else st
  if st.is_new_row then
    let y1 := qadd st.current.y 1
    let y2 :=
      if key.rotation_y != st.cluster_rotation_y || key.rotation_x != st.cluster_rotation_x then
        key.rotation_y
      else y1
    { st with
      current := { st.current with y := y2, x := key.rotation_x }
      cluster_rotation_angle := key.rotation_angle
      cluster_rotation_x := key.rotation_x
      cluster_rotation_y := key.rotation_y
      is_new_row := false }
  else st

/-- The "if statement for ordered color" block of the `to_json` loop. -/
def encode_ordered_color (aligned_text_color : List String) (key : Key) : List String :=
  if aligned_text_color.getD 0 "" == "" then aligned_text_color.set 0 key.default_text_color
  else
    (List.range' 2 10).foldl
      (fun (atc : List String) i =>
        if atc.getD i "" != "" && atc.getD i "" != atc.getD 0 "" then
          atc.set i key.default_text_color
        else atc)
      aligned_text_color

/-- The size-optimization block of the `to_json` loop (`f` forced, `f2`, or
`fa`), returning the updated changes dict and running size array. -/
def encode_sizes (kc : List (String × PyVal)) (current_labels_size : List ℚ)
    (key : Key) (aligned_text_size : List ℚ) (aligned_text_labels : List String) :
    List (String × PyVal) × List ℚ :=
  if !(compare_text_sizes current_labels_size aligned_text_size aligned_text_labels) then
    if (_reduced_text_sizes aligned_text_size).length = 0 then
      ((record_change kc "f" (.float key.default_text_size) (.int (-1))).1, current_labels_size)
    else
      let optimizeF2 :=
        (aligned_text_size.getD 0 0 == 0)
          && ((List.range' 2 ((_reduced_text_sizes aligned_text_size).length - 2)).all
            (fun i => aligned_text_size.getD i 0 == aligned_text_size.getD 1 0))
      if optimizeF2 then
        let f2 := aligned_text_size.getD 1 0
        ((record_change kc "f2" (.float f2) (.int (-1))).1, (0 : ℚ) :: List.replicate 11 f2)
      else
        ((record_change kc "fa"
            (.list ((_reduced_text_sizes aligned_text_size).map (fun q => PyVal.float q)))
            (.list [])).1,
          aligned_text_size)
  else (kc, current_labels_size)

/-- The geometry/flag records at the end of the `to_json` loop (`w`, `h`,
`w2`, `h2`, `x2`, `y2`, `n`, `l`, `d`); none of them update the template. -/
def encode_geometry (kc : List (String × PyVal)) (key : Key) : List (String × PyVal) :=
  let kc := (record_change kc "w" (.mpf key.width) (.mpf 1)).1
  let kc := (record_change kc "h" (.mpf key.height) (.mpf 1)).1
  let kc := (record_change kc "w2" (.mpf key.width2) (.mpf key.width)).1
  let kc := (record_change kc "h2" (.mpf key.height2) (.mpf key.height)).1
  let kc := (record_change kc "x2" (.mpf key.x2) (.mpf 0)).1
  let kc := (record_change kc "y2" (.mpf key.y2) (.mpf 0)).1
  let kc := (record_change kc "n" (.bool key.is_homing) (.bool false)).1
  let kc := (record_change kc "l" (.bool key.is_stepped) (.bool false)).1
  (record_change kc "d" (.bool key.is_decal) (.bool false)).1

/-- The `r`/`rx`/`ry`/`y`/`x`/`c` records of the `to_json` loop, returning
the updated changes dict and template. -/
def encode_position (kc : List (String × PyVal)) (current : Key) (key : Key) :
    List (String × PyVal) × Key :=
  let kc := (record_change kc "r" (.mpf key.rotation_angle) (.mpf current.rotation_angle)).1
  let current := { current with rotation_angle := key.rotation_angle }
  let kc := (record_change kc "rx" (.mpf key.rotation_x) (.mpf current.rotation_x)).1
  let current := { current with rotation_x := key.rotation_x }
  let kc := (record_change kc "ry" (.mpf key.rotation_y) (.mpf current.rotation_y)).1
  let current := { current with rotation_y := key.rotation_y }
  let kc := (record_change kc "y" (.mpf (qsub key.y current.y)) (.mpf 0)).1
  let current := { current with y := qadd current.y (qsub key.y current.y) }
  let kc := (record_change kc "x" (.mpf (qsub key.x current.x)) (.mpf 0)).1
  let current := { current with x := qadd (qadd current.x (qsub key.x current.x)) key.width }
  let kc := (record_change kc "c" (.str key.color) (.str current.color)).1
  let current := { current with color := key.color }
  (kc, current)

/-- The `g`/`p`/`sm`/`sb`/`st` records of the `to_json` loop, returning the
updated changes dict and template. -/
def encode_flags_switch (kc : List (String × PyVal)) (current : Key) (key : Key) :
    List (String × PyVal) × Key :=
  let kc := (record_change kc "g" (.bool key.is_ghosted) (.bool current.is_ghosted)).1
  let current := { current with is_ghosted := key.is_ghosted }
  let kc := (record_change kc "p" (.str key.profile_and_row) (.str current.profile_and_row)).1
  let current := { current with profile_and_row := key.profile_and_row }
  let kc := (record_change kc "sm" (.str key.switch.mount) (.str current.switch.mount)).1
  let current := { current with switch := { current.switch with mount := key.switch.mount } }
  let kc := (record_change kc "sb" (.str key.switch.brand) (.str current.switch.brand)).1
  let current := { current with switch := { current.switch with brand := key.switch.brand } }
  let kc := (record_change kc "st" (.str key.switch.type) (.str current.switch.type)).1
  let current := { current with switch := { current.switch with type := key.switch.type } }
  (kc, current)

/-- The per-key body of the `to_json` loop, in source order.  `record_change`
always returns its `val` argument, so the running-template updates assign the
key's value directly. -/
def encode_key (st : EncState) (key : Key) : EncState :=
  let aligned := _aligned_key_properties key st.current_labels_size
  let alignment := aligned.1
  let aligned_text_labels := aligned.2.1
  let st := encode_row_setup st key
  let pos := encode_position [] st.current key
  let atc := encode_ordered_color aligned.2.2.1 key
  let joined_colors := pyRstrip (joinNL atc)
  let kc := (record_change pos.1 "t" (.str joined_colors) (.str st.current_labels_color)).1
  let fs := encode_flags_switch kc pos.2 key
  let kc := (record_change fs.1 "a" (.int alignment) (.int st.align)).1
  let kc := (record_change kc "f" (.float key.default_text_size) (.float fs.2.default_text_size)).1
  let current := { fs.2 with default_text_size := key.default_text_size }
  let current_labels_size :=
    if hasField kc "f" then List.replicate 12 (0 : ℚ) else st.current_labels_size
  let sized := encode_sizes kc current_labels_size key aligned.2.2.2 aligned_text_labels
  let kc := encode_geometry sized.1 key
  let row := if kc.length > 0 then st.row ++ [.dict kc] else st.row
  let row := row ++ [.str (pyRstrip (joinNL aligned_text_labels))]
  { st with
    row := row
    current := current
    align := alignment
    current_labels_color := joined_colors
    current_labels_size := sized.2 }

/-- The initial encoder state of `to_json`: the optional metadata mapping
already emitted, a fresh template key with `y` decremented (it is incremented
on the first row), default alignment 4. -/
def encode_init (keyboard : Keyboard) : EncState :=
  let metadata_changes := metadata_changes_of keyboard.metadata
  { keyboard_json := if metadata_changes.length > 0 then [.dict metadata_changes] else []
    row := []
    current := { Key.default with y := qsub Key.default.y 1 }
    align := 4
    current_labels_color := Key.default.default_text_color
    current_labels_size := List.replicate 12 (0 : ℚ)
    cluster_rotation_angle := 0
    cluster_rotation_x := 0
    cluster_rotation_y := 0
    is_new_row := true }

/-- The tail of `to_json`: flush a non-empty trailing row. -/
def encode_finish (st : EncState) : List PyVal :=
  if st.row.length > 0 then st.keyboard_json ++ [.list st.row] else st.keyboard_json

/-- `Keyboard.to_json` from `keyboard.py`: the optional metadata mapping,
then the keys, sorted by `key_sort_criteria`, encoded as minimal diffs and
flushed row by row. -/
def to_json (keyboard : Keyboard) : List PyVal :=
  encode_finish ((sorted_keys keyboard).foldl encode_key (encode_init keyboard))


/-- `decode(encode(kb))`: decode, re-encode, decode again. -/
def roundtrip (doc : PyVal) : Except DecodeError Keyboard :=
  (from_json doc).bind (fun kb => from_json (.list (to_json kb)))

/-- Text of label slot 0 of the first key. -/
def first_label_text (kb : Keyboard) : String :=
  ((kb.keys.headD Key.default).labels.headD Label.default).text

/-- The document `[["A"]]`. -/
def doc_single_label_A : PyVal := .list [.list [.str "A"]]

/-- The document `[["A "]]` (label text with a trailing space). -/
def doc_trailing_space : PyVal := .list [.list [.str "A "]]

/-- The document `[[{"x":1},"A"],[{"r":15},"B"]]` (rotation change first in
its row). -/
def doc_rotation_second_row : PyVal :=
  .list [.list [.dict [("x", .int 1)], .str "A"],
         .list [.dict [("r", .int 15)], .str "B"]]

/-- The document `[[{"x":1},{"r":15},"B"]]` (rotation change not first in
its row). -/
def doc_rotation_mid_row : PyVal :=
  .list [.list [.dict [("x", .int 1)], .dict [("r", .int 15)], .str "B"]]

/-- The behaviour claim C3 describes for a `t` key change (for comparison
with the code): only the segments *after the first* are scattered into the
canonical color array via `unaligned`. -/
def t_colors_claimed (value : String) (alignment : ℤ) : Option (List String) :=
  unaligned ((pySplitNL value).drop 1) alignment ""


/-- The canonical label texts of a key (`[label.text for label in key.labels]`). -/
def texts_of (key : Key) : List String := key.labels.map (fun l => l.text)

/-- The survival predicate of claim C2: alignment code `a` survives iff no
canonical slot `i < 12` with non-empty text lists `a` as disallowed. -/
def survives (texts : List String) (a : ℤ) : Bool :=
  decide (∀ i : ℕ, i < 12 → texts.getD i "" ≠ "" →
    a ∉ disallowed_alignnment_for_labels.getD i [])

/-! ### Theorems -/

theorem qOfInt_eq (n : ℤ) : qOfInt n = (n : ℚ) := by
  simp [qOfInt, Rat.mkRat_eq_divInt]

theorem qadd_eq (a b : ℚ) : qadd a b = a + b := by
  have ha : (a.den : ℤ) ≠ 0 := Int.natCast_ne_zero.mpr a.den_nz
  have hb : (b.den : ℤ) ≠ 0 := Int.natCast_ne_zero.mpr b.den_nz
  rw [qadd, Rat.mkRat_eq_divInt]
  conv_rhs => rw [← Rat.num_divInt_den a, ← Rat.num_divInt_den b]
  rw [Rat.divInt_add_divInt _ _ ha hb]
  push_cast
  ring_nf

theorem qsub_eq (a b : ℚ) : qsub a b = a - b := by
  have ha : (a.den : ℤ) ≠ 0 := Int.natCast_ne_zero.mpr a.den_nz
  have hb : (b.den : ℤ) ≠ 0 := Int.natCast_ne_zero.mpr b.den_nz
  rw [qsub, Rat.mkRat_eq_divInt]
  conv_rhs => rw [← Rat.num_divInt_den a, ← Rat.num_divInt_den b]
  rw [Rat.divInt_sub_divInt _ _ ha hb]
  push_cast
  ring_nf

theorem qmul_eq (a b : ℚ) : qmul a b = a * b := by
  have ha : (a.den : ℤ) ≠ 0 := Int.natCast_ne_zero.mpr a.den_nz
  have hb : (b.den : ℤ) ≠ 0 := Int.natCast_ne_zero.mpr b.den_nz
  rw [qmul, Rat.mkRat_eq_divInt]
  conv_rhs => rw [← Rat.num_divInt_den a, ← Rat.num_divInt_den b]
  rw [Rat.divInt_mul_divInt _ _ ha hb]
  push_cast
  ring_nf

theorem pydiv_eq (a b : ℚ) : pydiv a b = a / b := by
  rcases eq_or_ne b 0 with hb | hb
  · subst hb
    simp [pydiv, Rat.divInt_eq_div]
  · have hbn : (b.num : ℚ) ≠ 0 := by
      exact_mod_cast Rat.num_ne_zero.mpr hb
    have had : ((a.den : ℤ) : ℚ) ≠ 0 := by
      exact_mod_cast Int.natCast_ne_zero.mpr a.den_nz
    have hbd : ((b.den : ℤ) : ℚ) ≠ 0 := by
      exact_mod_cast Int.natCast_ne_zero.mpr b.den_nz
    rw [pydiv, Rat.divInt_eq_div]
    conv_rhs => rw [← Rat.num_div_den a, ← Rat.num_div_den b]
    push_cast
    field_simp

theorem pymod_eq (a b : ℚ) : pymod a b = a - b * (⌊a / b⌋ : ℤ) := by
  rw [pymod, qsub_eq, qmul_eq, qOfInt_eq, pydiv_eq]

theorem lexLeB_iff (x y : ℚ × ℚ × ℚ × ℚ × ℚ) :
    lexLeB x y = true ↔ lexOf x ≤ lexOf y := by
  obtain ⟨x1, x2, x3, x4, x5⟩ := x
  obtain ⟨y1, y2, y3, y4, y5⟩ := y
  simp only [lexLeB, lexOf, Prod.Lex.le_iff, Prod.Lex.lt_iff]
  split_ifs with h1 h2 h3 h4 <;>
    simp_all [lt_iff_le_and_ne]

theorem dlookup_nil (m : String) : dlookup [] m = Option.none := rfl

theorem dlookup_cons (p : String × PyVal) (rest : List (String × PyVal))
    (m : String) :
    dlookup (p :: rest) m = if p.1 = m then some p.2 else dlookup rest m := by
  by_cases h : p.1 = m
  · have hb : (p.1 == m) = true := by simpa using h
    simp [dlookup, List.find?_cons, hb, h]
  · have hb : (p.1 == m) = false := by simpa using h
    simp [dlookup, List.find?_cons, hb, h]

theorem dlookup_dictInsert (d : List (String × PyVal)) (k : String) (v : PyVal)
    (m : String) :
    dlookup (dictInsert d k v) m = if m = k then some v else dlookup d m := by
  induction d with
  | nil =>
    rw [dictInsert, dlookup_cons, dlookup_nil]
    by_cases hm : m = k
    · simp [hm]
    · have hk : ¬ k = m := fun h => hm h.symm
      simp [hm, hk]
  | cons p rest ih =>
    by_cases hpk : (p.1 == k) = true
    · have hp1 : p.1 = k := by simpa using hpk
      simp only [dictInsert, hpk, if_true]
      rw [dlookup_cons, dlookup_cons]
      by_cases hm : m = k
      · simp [hm, hp1]
      · have : ¬ p.1 = m := fun h => hm (h.symm.trans hp1)
        simp [hm, this]
    · have hpk' : ¬ p.1 = k := by simpa using hpk
      simp only [dictInsert, hpk, if_false, Bool.false_eq_true]
      rw [dlookup_cons, dlookup_cons]
      by_cases hpm : p.1 = m
      · have hm : ¬ m = k := fun h => hpk' (hpm.trans h)
        simp [hpm, hm]
      · simp [hpm, ih]

/-- C6: `record_change(bag, fieldName, value, referenceValue)` returns
`value` unchanged; it binds `fieldName` in the bag iff `value != referenceValue`
(Python equality), storing an `mpf` with zero fractional part (denominator 1)
as an integer literal and any other `mpf` as a real literal; every other
field of the bag is untouched.  It never fails (it is a total function). -/
theorem record_change_spec (changes : List (String × PyVal)) (name : String)
    (val default_val : PyVal) :
    (record_change changes name val default_val).2 = val ∧
    ∀ m : String,
      dlookup (record_change changes name val default_val).1 m =
        if m = name then
          (if pyEq val default_val then dlookup changes name
           else some (match val with
             | .mpf q => if q.den = 1 then PyVal.int q.num else PyVal.float q
             | v => v))
        else dlookup changes m := by
  refine ⟨rfl, fun m => ?_⟩
  by_cases he : pyEq val default_val
  · by_cases hm : m = name <;> simp [record_change, he, hm]
  · cases val
    all_goals try (simp [record_change, he, dlookup_dictInsert]; done)
    rename_i q
    by_cases hd : q.den = 1 <;>
      simp [record_change, he, hd, dlookup_dictInsert]

/-- C10: `Keyboard.__init__` ignores both of its arguments: for every
metadata argument and every keys argument the result has a fresh default
`Metadata` and an empty key list, independently of what was passed in. -/
theorem keyboard_init_ignores_arguments :
    ∀ (metadata : Option Metadata) (keys : Option (List Key)),
      (Keyboard.init metadata keys).metadata = Metadata.default
      ∧ (Keyboard.init metadata keys).keys = []
      ∧ Keyboard.init metadata keys = Keyboard.init Option.none Option.none :=
  fun _ _ => ⟨rfl, rfl, rfl⟩

/-- C9: `[["A"]]` decodes to a keyboard with exactly one key: label slot 0
has text `"A"`, the other eleven slots are untouched defaults, width and
height are 1, the position is `(0, 0)` (and the secondary size mirrors the
primary). -/
theorem decode_single_label :
    from_json doc_single_label_A =
      .ok ⟨Metadata.default,
        [{ Key.default with
            width2 := 1
            height2 := 1
            labels := { Label.default with text := "A" } ::
              List.replicate 11 Label.default }]⟩ := by
  rfl

/-- C4: a key-changes mapping containing `r`, `rx` or `ry` at row index
`k ≠ 0` makes the decoder raise the rotation `DeserializeException` with the
row as payload, whatever the running state; `[[{"x":1},"A"],[{"r":15},"B"]]`
(rotation change at row index 0) decodes successfully, while
`[[{"x":1},{"r":15},"B"]]` fails with exactly that structural error. -/
theorem rotation_change_placement :
    (∀ (st : DecState) (row : List PyVal) (k : ℕ)
        (key_changes : List (String × PyVal)),
      k ≠ 0 →
      (hasField key_changes "r" || hasField key_changes "rx"
        || hasField key_changes "ry") = true →
      processRowItem st row k (.dict key_changes) =
        .error (.deser rotation_error_message (.list row)))
    ∧ (from_json doc_rotation_second_row).isOk = true
    ∧ from_json doc_rotation_mid_row =
        .error (.deser rotation_error_message
          (.list [.dict [("x", .int 1)], .dict [("r", .int 15)], .str "B"])) := by
  refine ⟨?_, by rfl, by rfl⟩
  intro st row k key_changes hk hr
  have h1 : (k != 0 && (hasField key_changes "r" || hasField key_changes "rx"
      || hasField key_changes "ry")) = true := by
    simp only [Bool.and_eq_true, bne_iff_ne, ne_eq]
    exact ⟨hk, hr⟩
  simp [processRowItem, h1]

/-- Witness for C4: the general rotation-placement error applied at row
index 1 with the mapping `{"r": 15}`. -/
theorem rotation_change_placement_witness :
    (1 ≠ 0) ∧
    processRowItem initDecState [.str "B"] 1 (.dict [("r", .int 15)]) =
      .error (.deser rotation_error_message (.list [.str "B"])) :=
  ⟨one_ne_zero,
    rotation_change_placement.1 initDecState [.str "B"] 1 [("r", .int 15)]
      one_ne_zero (by decide)⟩

/-- C8 counterexample: decoding `[[1]]` (a bare number as row element) fails
with the fixed message `"expected an object specifying key changes ortext
labels for a key"` carrying the offending value as payload; contrary to the
claim, that message does not name the offending value's type (`"int"` is not
a substring of it). -/
theorem row_item_error_counterexample :
    from_json (.list [.list [.int 1]]) =
      .error (.deser row_item_error_message (.int 1))
    ∧ ¬ ((pyTypeName (.int 1)).toList <:+: row_item_error_message.toList) := by
  exact ⟨by rfl, by decide⟩

/-- C8 amended: a row element that is neither a string nor an object makes
the decoder fail with a structural `DeserializeException` carrying the
offending value as payload; its message is the fixed string
`"expected an object specifying key changes ortext labels for a key"`
(it does not name the offending value's type). -/
theorem row_item_error_amended :
    (∀ (st : DecState) (row : List PyVal) (k : ℕ) (item : PyVal),
      (∀ s, item ≠ .str s) → (∀ d, item ≠ .dict d) →
      processRowItem st row k item = .error (.deser row_item_error_message item))
    ∧ from_json (.list [.list [.int 1]]) =
        .error (.deser row_item_error_message (.int 1)) := by
  constructor
  · intro st row k item hs hd
    cases item
    case str s => exact absurd rfl (hs s)
    case dict d => exact absurd rfl (hd d)
    all_goals rfl
  · rfl

/-- Witness for the amended C8: the general row-element error applied to the
bare number `1`. -/
theorem row_item_error_amended_witness :
    ((∀ s, PyVal.int 1 ≠ PyVal.str s) ∧ (∀ d, PyVal.int 1 ≠ PyVal.dict d)) ∧
    processRowItem initDecState [.int 1] 0 (.int 1) =
      .error (.deser row_item_error_message (.int 1)) :=
  ⟨⟨fun _ h => PyVal.noConfusion h, fun _ h => PyVal.noConfusion h⟩,
    row_item_error_amended.1 initDecState [.int 1] 0 (.int 1)
      (fun _ h => PyVal.noConfusion h) (fun _ h => PyVal.noConfusion h)⟩

/-- C1 (failing input): the keyboard decoded from `[["A "]]` has one key
whose slot-0 text is `"A "`, but encoding it and decoding again yields the
text `"A"`: `to_json` joins the aligned labels with `"\n"` and calls
`rstrip()`, which also strips the trailing whitespace that belongs to the
last non-empty label, so `decode(encode(kb))` is not label-text equivalent
to `kb`. -/
theorem roundtrip_trailing_space_bug :
    (from_json doc_trailing_space).map first_label_text = .ok "A "
    ∧ (roundtrip doc_trailing_space).map first_label_text = .ok "A"
    ∧ (from_json doc_trailing_space).map (fun kb => kb.keys.length) = .ok 1
    ∧ (roundtrip doc_trailing_space).map (fun kb => kb.keys.length) = .ok 1 := by
  exact ⟨by rfl, by rfl, by rfl, by rfl⟩

theorem pyEq_list_not_float (l : List PyVal) (q : ℚ) :
    pyEq (.list l) (.float q) = false := rfl

theorem aligned_cleanup_eq_nodead (bound : ℕ) (atl : List String)
    (cls : List ℚ) (dflt : ℚ) (s0 : List ℚ) :
    aligned_cleanup bound atl cls dflt s0 = aligned_cleanup_nodead bound atl cls s0 := by
  unfold aligned_cleanup aligned_cleanup_nodead
  apply List.foldl_ext
  intro acc i _
  by_cases h : atl.getD i "" == "" <;> simp [h, pyEq_list_not_float]

/-- C5: the encoder's size-optimization check
`aligned_text_size == key.default_text_size` compares a list against a
scalar, which is always false under Python equality, so the zeroing branch is
dead: `_aligned_key_properties` computes the same result as the same function
with that branch removed, for every key and running size array. -/
theorem aligned_size_branch_dead :
    (∀ (sizes : List ℚ) (q : ℚ),
      pyEq (.list (sizes.map (fun x => PyVal.float x))) (.float q) = false)
    ∧ ∀ (key : Key) (current_labels_size : List ℚ),
        _aligned_key_properties key current_labels_size =
          _aligned_key_properties_nodead key current_labels_size := by
  refine ⟨fun sizes q => rfl, fun key cls => ?_⟩
  unfold _aligned_key_properties _aligned_key_properties_nodead
  simp only [aligned_cleanup_eq_nodead]

theorem pyWriteSeq_full {α : Type} :
    ∀ (dst src : List α), dst.length = src.length → pyWriteSeq dst src = some src := by
  intro dst src
  induction src generalizing dst with
  | nil =>
    intro h
    cases dst with
    | nil => rfl
    | cons d ds => simp at h
  | cons c cs ih =>
    intro h
    cases dst with
    | nil => simp at h
    | cons d ds =>
      have : ds.length = cs.length := by simpa using h
      simp [pyWriteSeq, ih ds this]

theorem foldlM_length_inv {α β : Type} (step : List α → β → Option (List α))
    (hstep : ∀ acc b r, step acc b = some r → r.length = acc.length) :
    ∀ (l : List β) (acc r : List α), List.foldlM step acc l = some r → r.length = acc.length := by
  intro l
  induction l with
  | nil =>
    intro acc r h
    simp only [List.foldlM] at h
    cases h
    rfl
  | cons b bs ih =>
    intro acc r h
    rw [List.foldlM_cons] at h
    rcases Option.bind_eq_some.mp h with ⟨acc', h1, h2⟩
    exact (ih acc' r h2).trans (hstep acc b acc' h1)

theorem pySet_length {α : Type} (l : List α) (i : ℤ) (v : α) (r : List α)
    (h : pySet l i v = some r) : r.length = l.length := by
  rcases Option.map_eq_some'.mp h with ⟨n, _, h2⟩
  rw [← h2, List.length_set]

theorem unaligned_length {α : Type} (items : List α) (alignment : ℤ) (dv : α)
    (u : List α) (h : unaligned items alignment dv = some u) : u.length = 12 := by
  unfold unaligned at h
  rcases Option.bind_eq_some.mp h with ⟨rowIdx, _, h2⟩
  simp only [Option.pure_def, Option.bind_eq_bind] at h2
  have := foldlM_length_inv
    (fun acc p => (label_map.getD rowIdx []).get? p.1 >>= fun j => pySet acc j p.2)
    (fun acc b r hr => by
      rcases Option.bind_eq_some.mp hr with ⟨j, _, hj⟩
      exact pySet_length acc j b.2 r hj)
    items.enum (List.replicate 12 dv) u h2
  simpa using this


/-- C3 amended: playing back a key-changes mapping containing only `t` splits
the value on line breaks; a non-empty first segment becomes the template
key's default text color; then *all* segments (including the first) are
scattered via `unaligned` under the current alignment, the result replacing
the entire running 12-slot color array. -/
theorem t_field_scatters_all_segments (key : Key) (colors : List String)
    (sizes : List ℚ) (alignment : ℤ) (crx cry : ℚ) (s : String) (u : List String)
    (hu : unaligned (pySplitNL s) alignment "" = some u)
    (hc : colors.length = 12) :
    playback_key_changes key [("t", .str s)] colors sizes alignment crx cry =
      some
        ({ key with default_text_color :=
            if (pySplitNL s).headD "" ≠ "" then (pySplitNL s).headD ""
            else key.default_text_color },
          u, sizes, alignment, crx, cry) := by
  have hu12 : u.length = 12 := unaligned_length _ _ _ _ hu
  have hw : pyWriteSeq colors u = some u := pyWriteSeq_full _ _ (hc.trans hu12.symm)
  have h_r : dlookup [("t", PyVal.str s)] "r" = Option.none := rfl
  have h_rx : dlookup [("t", PyVal.str s)] "rx" = Option.none := rfl
  have h_ry : dlookup [("t", PyVal.str s)] "ry" = Option.none := rfl
  have h_a : dlookup [("t", PyVal.str s)] "a" = Option.none := rfl
  have h_f : dlookup [("t", PyVal.str s)] "f" = Option.none := rfl
  have h_f2 : dlookup [("t", PyVal.str s)] "f2" = Option.none := rfl
  have h_fa : dlookup [("t", PyVal.str s)] "fa" = Option.none := rfl
  have h_p : dlookup [("t", PyVal.str s)] "p" = Option.none := rfl
  have h_c : dlookup [("t", PyVal.str s)] "c" = Option.none := rfl
  have h_x : dlookup [("t", PyVal.str s)] "x" = Option.none := rfl
  have h_y : dlookup [("t", PyVal.str s)] "y" = Option.none := rfl
  have h_w : dlookup [("t", PyVal.str s)] "w" = Option.none := rfl
  have h_h : dlookup [("t", PyVal.str s)] "h" = Option.none := rfl
  have h_x2 : dlookup [("t", PyVal.str s)] "x2" = Option.none := rfl
  have h_y2 : dlookup [("t", PyVal.str s)] "y2" = Option.none := rfl
  have h_w2 : dlookup [("t", PyVal.str s)] "w2" = Option.none := rfl
  have h_h2 : dlookup [("t", PyVal.str s)] "h2" = Option.none := rfl
  have h_n : dlookup [("t", PyVal.str s)] "n" = Option.none := rfl
  have h_l : dlookup [("t", PyVal.str s)] "l" = Option.none := rfl
  have h_d : dlookup [("t", PyVal.str s)] "d" = Option.none := rfl
  have h_g : dlookup [("t", PyVal.str s)] "g" = Option.none := rfl
  have h_sm : dlookup [("t", PyVal.str s)] "sm" = Option.none := rfl
  have h_sb : dlookup [("t", PyVal.str s)] "sb" = Option.none := rfl
  have h_st : dlookup [("t", PyVal.str s)] "st" = Option.none := rfl
  have h_t : dlookup [("t", PyVal.str s)] "t" = some (PyVal.str s) := rfl
  simp [playback_key_changes, h_r, h_rx, h_ry, h_a, h_f, h_f2, h_fa, h_p, h_c, h_x, h_y, h_w, h_h, h_x2, h_y2, h_w2, h_h2, h_n, h_l, h_d, h_g, h_sm, h_sb, h_st, h_t, asStr, hu, hw]
  by_cases h0 : (pySplitNL s).head?.getD "" = "" <;> simp [h0]

/-- Witness for the amended C3: `t = "red\nblue"` under alignment 4 sets the
default color to `"red"` and replaces the canonical color array with
`unaligned(["red","blue"], 4, "")`, i.e. `"red"` in slot 0 and `"blue"` in
slot 6. -/
theorem t_field_scatters_all_segments_witness :
    (unaligned (pySplitNL "red\nblue") 4 "" =
        some ["red", "", "", "", "", "", "blue", "", "", "", "", ""]
      ∧ (List.replicate 12 "").length = 12)
    ∧ playback_key_changes Key.default [("t", .str "red\nblue")]
        (List.replicate 12 "") (List.replicate 12 0) 4 0 0 =
      some
        ({ Key.default with default_text_color :=
            if (pySplitNL "red\nblue").headD "" ≠ "" then (pySplitNL "red\nblue").headD ""
            else Key.default.default_text_color },
          ["red", "", "", "", "", "", "blue", "", "", "", "", ""],
          List.replicate 12 0, 4, 0, 0) :=
  ⟨⟨by decide, by decide⟩,
    t_field_scatters_all_segments Key.default (List.replicate 12 "")
      (List.replicate 12 0) 4 0 0 "red\nblue"
      ["red", "", "", "", "", "", "blue", "", "", "", "", ""]
      (by decide) (by decide)⟩

/-- C3 counterexample: for the key change `{"t": "red\nblue"}` under
alignment 4, the code scatters *all* segments (slot 0 receives `"red"`, the
first segment), while the claim scatters only the segments after the first
(`unaligned(["blue"], 4, "")`, i.e. `"blue"` in slot 0): the resulting color
arrays differ. -/
theorem t_field_claim_counterexample :
    (playback_key_changes Key.default [("t", .str "red\nblue")]
        (List.replicate 12 "") (List.replicate 12 0) 4 0 0).map
      (fun r => r.2.1) =
      some ["red", "", "", "", "", "", "blue", "", "", "", "", ""]
    ∧ t_colors_claimed "red\nblue" 4 =
        some ["blue", "", "", "", "", "", "", "", "", "", "", ""]
    ∧ (some ["red", "", "", "", "", "", "blue", "", "", "", "", ""] ≠
        t_colors_claimed "red\nblue" 4) := by
  exact ⟨by rfl, by rfl, by decide⟩

theorem erase_filter_of_true {α : Type} [BEq α] [LawfulBEq α] (P : α → Bool) (x : α)
    (hx : P x = true) :
    ∀ acc : List α, (acc.erase x).filter (fun a => !P a) = acc.filter (fun a => !P a) := by
  intro acc
  induction acc with
  | nil => rfl
  | cons a t ih =>
    rw [List.erase_cons]
    by_cases hax : (a == x) = true
    · have ha : a = x := by simpa using hax
      simp [hax, List.filter_cons, ha, hx]
    · simp only [hax, Bool.false_eq_true, if_false]
      by_cases hPa : P a = true <;> simp [List.filter_cons, hPa, ih]

theorem foldl_erase_eq_filter {α : Type} [BEq α] [LawfulBEq α] (P : α → Bool) :
    ∀ (l acc : List α), acc.Nodup → (∀ a ∈ acc, P a = true → a ∈ l) →
      l.foldl (fun acc a => if P a then acc.erase a else acc) acc
        = acc.filter (fun a => !P a) := by
  intro l
  induction l with
  | nil =>
    intro acc _ hsub
    simp only [List.foldl_nil]
    symm
    apply List.filter_eq_self.mpr
    intro a ha
    by_cases hPa : P a = true
    · exact absurd (hsub a ha hPa) (List.not_mem_nil a)
    · simp [hPa]
  | cons x xs ih =>
    intro acc hnd hsub
    rw [List.foldl_cons]
    by_cases hPx : P x = true
    · rw [if_pos hPx]
      rw [ih (acc.erase x) (hnd.erase x) ?_]
      · exact erase_filter_of_true P x hPx acc
      · intro a ha hPa
        have hax : a ≠ x ∧ a ∈ acc := (hnd.mem_erase_iff).mp ha
        rcases List.mem_cons.mp (hsub a hax.2 hPa) with h | h
        · exact absurd h hax.1
        · exact h
    · rw [if_neg hPx]
      apply ih acc hnd
      intro a ha hPa
      rcases List.mem_cons.mp (hsub a ha hPa) with h | h
      · subst h
        exact absurd hPa hPx
      · exact h

theorem foldl_cond_filter (texts : List String) :
    ∀ (idxs : List ℕ) (init : List ℤ), init.Nodup →
      idxs.foldl
        (fun als i =>
          if texts.getD i "" ≠ "" then
            als.foldl
              (fun acc a =>
                if (disallowed_alignnment_for_labels.getD i []).contains a then acc.erase a
                else acc)
              als
          else als)
        init
      = init.filter (fun a =>
          idxs.all (fun i =>
            !((texts.getD i "" != "")
              && (disallowed_alignnment_for_labels.getD i []).contains a))) := by
  intro idxs
  induction idxs with
  | nil =>
    intro init _
    simp
  | cons i is ih =>
    intro init hnd
    rw [List.foldl_cons]
    by_cases hne : texts.getD i "" ≠ ""
    · rw [if_pos hne]
      rw [foldl_erase_eq_filter
        (fun a => (disallowed_alignnment_for_labels.getD i []).contains a)
        init init hnd (fun a ha _ => ha)]
      rw [ih _ (hnd.filter _)]
      rw [List.filter_filter]
      apply List.filter_congr
      intro a _
      have hb : (texts.getD i "" != "") = true := by simpa using hne
      simp only [List.all_cons, hb, Bool.true_and]
      exact Bool.and_comm _ _
    · rw [if_neg hne]
      rw [ih init hnd]
      apply List.filter_congr
      intro a _
      have hb : (texts.getD i "" != "") = false := by simpa using hne
      simp only [List.all_cons, hb, Bool.false_and, Bool.not_false, Bool.true_and]

theorem survive_bool_iff (texts : List String) (a : ℤ) (i : ℕ) :
    (!((texts.getD i "" != "")
        && (disallowed_alignnment_for_labels.getD i []).contains a)) = true
      ↔ (texts.getD i "" ≠ "" → a ∉ disallowed_alignnment_for_labels.getD i []) := by
  rw [Bool.not_eq_true', Bool.and_eq_false_iff]
  constructor
  · rintro (h1 | h1)
    · intro hne
      exact absurd (by simpa using h1) hne
    · intro _ hmem
      have hc : (disallowed_alignnment_for_labels.getD i []).contains a = true :=
        List.elem_iff.mpr hmem
      rw [h1] at hc
      cases hc
  · intro h
    by_cases hne : texts.getD i "" = ""
    · exact Or.inl (by simpa using hne)
    · refine Or.inr ?_
      cases hc : (disallowed_alignnment_for_labels.getD i []).contains a
      · rfl
      · exact absurd (List.elem_iff.mp hc) (h hne)

/-- C2: during encoding, the candidate alignments are tried in the fixed
priority order `[7, 5, 6, 4, 3, 1, 2, 0]`; a candidate survives exactly when
no canonical slot with non-empty label text lists it in
`disallowed_alignnment_for_labels`; the surviving list is never empty
(code 0 is never disallowed), and the chosen alignment of
`_aligned_key_properties` is deterministically its first element. -/
theorem encode_alignment_selection (key : Key) (current_labels_size : List ℚ)
    (h12 : key.labels.length = 12) :
    alignment_candidates (texts_of key) =
      [7, 5, 6, 4, 3, 1, 2, 0].filter (survives (texts_of key))
    ∧ alignment_candidates (texts_of key) ≠ []
    ∧ (_aligned_key_properties key current_labels_size).1 =
        (alignment_candidates (texts_of key)).headD 0 := by
  have hlen : (texts_of key).length = 12 := by
    simp [texts_of, h12]
  have main := foldl_cond_filter (texts_of key)
    (List.range (texts_of key).length) [7, 5, 6, 4, 3, 1, 2, 0] (by decide)
  have hAll : alignment_candidates (texts_of key) =
      [7, 5, 6, 4, 3, 1, 2, 0].filter (fun a =>
        (List.range (texts_of key).length).all (fun i =>
          !(((texts_of key).getD i "" != "")
            && (disallowed_alignnment_for_labels.getD i []).contains a))) := main
  have hcand : alignment_candidates (texts_of key) =
      [7, 5, 6, 4, 3, 1, 2, 0].filter (survives (texts_of key)) := by
    rw [hAll]
    apply List.filter_congr
    intro a _
    rw [hlen, survives, Bool.eq_iff_iff]
    simp only [List.all_eq_true, List.mem_range, decide_eq_true_eq]
    constructor
    · intro h i hi
      exact (survive_bool_iff _ a i).mp (h i hi)
    · intro h i hi
      exact (survive_bool_iff _ a i).mpr (h i hi)
  refine ⟨hcand, ?_, rfl⟩
  rw [hcand]
  have h0dis : ∀ i : ℕ, i < 12 → (0 : ℤ) ∉ disallowed_alignnment_for_labels.getD i [] := by
    decide
  apply List.ne_nil_of_mem (a := (0 : ℤ))
  apply List.mem_filter.mpr
  refine ⟨by decide, ?_⟩
  rw [survives, decide_eq_true_eq]
  intro i hi _
  exact h0dis i hi

/-- Witness for C2: the alignment chosen for a default key (all labels
empty) is the head of the surviving candidate list. -/
theorem encode_alignment_selection_witness :
    (Key.default.labels.length = 12) ∧
    (_aligned_key_properties Key.default (List.replicate 12 0)).1 =
      (alignment_candidates (texts_of Key.default)).headD 0 :=
  ⟨by decide,
    (encode_alignment_selection Key.default (List.replicate 12 0) (by decide)).2.2⟩

theorem pymod_360_bounds (a : ℚ) : 0 ≤ pymod a 360 ∧ pymod a 360 < 360 := by
  rw [pymod_eq]
  have h1 : ((⌊a / 360⌋ : ℤ) : ℚ) ≤ a / 360 := Int.floor_le _
  have h2 : a / 360 < (⌊a / 360⌋ : ℚ) + 1 := Int.lt_floor_add_one _
  have h360 : (0 : ℚ) < 360 := by norm_num
  have heq : (360 : ℚ) * (a / 360) = a := by field_simp
  constructor
  · have hmul := (mul_le_mul_left h360).mpr h1
    linarith
  · have hmul2 := (mul_lt_mul_left h360).mpr h2
    linarith

/-- C7: the encoder processes exactly `sorted_keys`, the keys sorted by the
lexicographic tuple (rotation angle normalized into `[0, 360)`, rotation_x,
rotation_y, y, x): the sorted list is a permutation of the keyboard's keys,
consecutive keys are lexicographically ordered by `key_sort_criteria`, and
the tuple's first component is the angle normalized into `[0, 360)`. -/
theorem encoder_key_ordering :
    ∀ keyboard : Keyboard,
      to_json keyboard =
        encode_finish ((sorted_keys keyboard).foldl encode_key (encode_init keyboard))
      ∧ (sorted_keys keyboard).Perm keyboard.keys
      ∧ (sorted_keys keyboard).Pairwise
          (fun a b => lexOf (key_sort_criteria a) ≤ lexOf (key_sort_criteria b))
      ∧ ∀ key : Key,
          key_sort_criteria key =
            (pymod (qadd key.rotation_angle 360) 360, key.rotation_x,
              key.rotation_y, key.y, key.x)
          ∧ 0 ≤ (key_sort_criteria key).1 ∧ (key_sort_criteria key).1 < 360 := by
  intro keyboard
  have htot : IsTotal Key keyRel := ⟨fun a b => by
    rcases le_total (lexOf (key_sort_criteria a)) (lexOf (key_sort_criteria b)) with h | h
    · exact Or.inl ((lexLeB_iff _ _).mpr h)
    · exact Or.inr ((lexLeB_iff _ _).mpr h)⟩
  have htrans : IsTrans Key keyRel := ⟨fun _ _ _ h1 h2 =>
    (lexLeB_iff _ _).mpr
      (le_trans ((lexLeB_iff _ _).mp h1) ((lexLeB_iff _ _).mp h2))⟩
  refine ⟨rfl, List.perm_insertionSort keyRel keyboard.keys, ?_, ?_⟩
  · have hs := @List.sorted_insertionSort Key keyRel _ htot htrans keyboard.keys
    exact hs.imp (fun hab => (lexLeB_iff _ _).mp hab)
  · intro key
    exact ⟨rfl, (pymod_360_bounds _).1, (pymod_360_bounds _).2⟩

end Kle
